import Mathlib

/-!
Verification of the false-sharing-demo report assembler.

The repository holds two Python scripts that turn a hard-coded benchmark
dataset into slide decks:

* `src/make_presentation.py` — Pipeline A, a text/bullet-only deck;
* `src/make_presentation_with_charts.py` — Pipeline B, a deck embedding
  four raster images plus one bullet summary slide.

We embed the data model and the deck-assembly logic shallowly: Python
floats become rationals (every literal in the dataset has an exact
two-decimal value), f-string `:.2f` / `:.1f` formatting becomes explicit
fixed-point rendering over `ℚ`, `:,` formatting becomes a
thousands-separator on `ℕ`, and the slide decks become lists of a `Slide`
inductive.  External library calls (matplotlib `savefig`, PIL `save`,
`ImageFont.truetype`, pptx `save`) are modelled as fallible results fed
into a pipeline function, so that the single `try/except` in the source
(the font fallback) and the propagation of every other failure are
visible in the embedding.
-/

/-! ## Fixed-point and thousands formatting (Python `:.2f`, `:.1f`, `:,`) -/

/-- Left-pad a string with `'0'` up to width `d`. -/
def padZeros (s : String) (d : Nat) : String :=
  if s.length ≥ d then s else String.mk (List.replicate (d - s.length) '0') ++ s

/-- Render a rational with exactly `d` digits after the decimal point,
rounding to nearest (the dataset never produces a tie, so the tie-breaking
direction of Python's float formatting is immaterial). -/
def fmtFixed (d : Nat) (q : ℚ) : String :=
  let scaled : Int := round (q * ((10 : ℚ) ^ d))
  let sign := if scaled < 0 then "-" else ""
  let n := scaled.natAbs
  sign ++ toString (n / 10 ^ d) ++ "." ++ padZeros (toString (n % 10 ^ d)) d

/-- Python `f"{x:.2f}"`. -/
def fmt2 (q : ℚ) : String := fmtFixed 2 q

/-- Python `f"{x:.1f}"`. -/
def fmt1 (q : ℚ) : String := fmtFixed 1 q

/-- Insert a comma after every third character of a reversed digit list. -/
def commasRev : List Char → List Char
  | a :: b :: c :: d :: rest => a :: b :: c :: ',' :: commasRev (d :: rest)
  | l => l

/-- Python `f"{n:,}"`: thousands-separated decimal rendering of a natural. -/
def thousands (n : Nat) : String :=
  String.mk (commasRev (toString n).data.reverse).reverse

/-! ## Data model (`system_info`, `memory_layout`, `runs`, `averages`,
`throughput` from `src/make_presentation.py`) -/

structure SystemInfo where
  processors : Nat
  maxThreads : Nat
  testThreads : Nat
  iterationsPerThread : Nat
  totalOps : Nat
  cacheLine : Nat
deriving DecidableEq, Repr

structure LayoutVariant where
  sizeofStr : String
  spacing : String
  offset0 : String
  offset1 : String
  note : String
deriving DecidableEq, Repr

structure MemoryLayout where
  unoptimized : LayoutVariant
  optimized : LayoutVariant
deriving DecidableEq, Repr

/-- One benchmark trial: `(unoptimizedTimeMs, optimizedTimeMs, speedupRatio)`. -/
abbrev RunTriple := ℚ × ℚ × ℚ

structure Averages where
  falseSharing : ℚ
  optimized : ℚ
  speedup : ℚ
deriving DecidableEq, Repr

structure Throughput where
  falseSharing : Nat
  optimized : Nat
  gain : ℚ
deriving DecidableEq, Repr

structure Dataset where
  systemInfo : SystemInfo
  memoryLayout : MemoryLayout
  runs : List RunTriple
  averages : Averages
  throughput : Throughput
deriving DecidableEq, Repr

/-- The literal dataset embedded in `src/make_presentation.py`. -/
def dataset : Dataset where
  systemInfo :=
    { processors := 16, maxThreads := 16, testThreads := 4
      iterationsPerThread := 50000000, totalOps := 200000000, cacheLine := 64 }
  memoryLayout :=
    { unoptimized :=
        { sizeofStr := "16 bytes", spacing := "4 bytes", offset0 := "0 bytes"
          offset1 := "4 bytes", note := "Multiple counters in same cache line" }
      optimized :=
        { sizeofStr := "64 bytes", spacing := "64 bytes", offset0 := "0 bytes"
          offset1 := "64 bytes", note := "Each counter in separate cache line" } }
  runs := [(76, 64, 119/100), (71, 81, 88/100), (78, 74, 105/100)]
  averages := { falseSharing := 75, optimized := 73, speedup := 103/100 }
  throughput := { falseSharing := 2666666667, optimized := 2739726027, gain := 103/100 }

/-! ## Slides and decks -/

/-- A slide as the assembler produces it: a title slide with optional
subtitle, a bullet slide with an ordered content list, or a picture slide
embedding image files by name. -/
inductive Slide where
  | titleSlide (title : String) (subtitle : Option String)
  | bulletSlide (title : String) (content : List String)
  | pictureSlide (title : String) (images : List String)
deriving DecidableEq, Repr

/-- The headline text of a slide, whatever its kind. -/
def Slide.heading : Slide → String
  | .titleSlide t _ => t
  | .bulletSlide t _ => t
  | .pictureSlide t _ => t

def Slide.isBullet : Slide → Bool
  | .bulletSlide _ _ => true
  | _ => false

def Slide.isTitle : Slide → Bool
  | .titleSlide _ _ => true
  | _ => false

/-! ## Paragraph-level semantics of `add_bullet_slide`
(`src/make_presentation.py` lines 63–76) -/

/-- One paragraph of a pptx text frame: text, indent level, font size in
points (`none` = library default, as after `clear()`). -/
structure Para where
  text : String
  level : Nat
  fontSize : Option Nat
deriving DecidableEq, Repr

/-- The single empty paragraph left by `text_frame.clear()`. -/
def emptyPara : Para := { text := "", level := 0, fontSize := none }

/-- The paragraph produced for bullet `b`: `p.level = 0; p.font.size = Pt(18)`. -/
def styledPara (b : String) : Para := { text := b, level := 0, fontSize := some 18 }

/-- One iteration of the `for i, b in enumerate(bullets)` loop: at `i = 0`
the text of the pre-existing paragraph is overwritten, otherwise a new
paragraph is appended; either way the touched paragraph is styled. -/
def applyBullet (ps : List Para) (i : Nat) (b : String) : List Para :=
  if i = 0 then ps.set 0 (styledPara b) else ps ++ [styledPara b]

/-- The paragraph list of the body placeholder after `add_bullet_slide`:
start from the cleared frame (one empty paragraph) and run the loop. -/
def addBulletSlideParas (bullets : List String) : List Para :=
  bullets.enum.foldl (fun ps p => applyBullet ps p.1 p.2) [emptyPara]

/-! ## Pipeline A: `buildTextDeck` (`src/make_presentation.py` lines 79–168) -/

/-- The memory-layout slide content (lines 108–122). -/
def memBullets (m : MemoryLayout) : List String :=
  [ "Unoptimized (False Sharing):",
    "  sizeof(SharedData): " ++ m.unoptimized.sizeofStr,
    "  Counter spacing: " ++ m.unoptimized.spacing,
    "  counter[0] at offset: " ++ m.unoptimized.offset0,
    "  counter[1] at offset: " ++ m.unoptimized.offset1,
    "  → " ++ m.unoptimized.note,
    "",
    "Optimized (Padded):",
    "  sizeof(PaddedCounter): " ++ m.optimized.sizeofStr,
    "  Counter spacing: " ++ m.optimized.spacing,
    "  padded_counter[0] at offset: " ++ m.optimized.offset0,
    "  padded_counter[1] at offset: " ++ m.optimized.offset1,
    "  → " ++ m.optimized.note ]

/-- The system-parameters slide content (lines 126–133). -/
def sysBullets (s : SystemInfo) : List String :=
  [ "Processors: " ++ toString s.processors,
    "Max threads: " ++ toString s.maxThreads,
    "Test threads: " ++ toString s.testThreads,
    "Iterations/thread: " ++ toString s.iterationsPerThread,
    "Total ops/run: " ++ toString s.totalOps,
    "Cache line size: " ++ toString s.cacheLine ++ " bytes" ]

/-- One formatted per-run line (line 139), with 1-based run number. -/
def runLine (n : Nat) (r : RunTriple) : String :=
  "Run " ++ toString n ++ ": False sharing " ++ fmt2 r.1 ++ " ms, Optimized " ++
    fmt2 r.2.1 ++ " ms, Speedup " ++ fmt2 r.2.2 ++ "x"

/-- The per-run results content (lines 137–140): one line per run, in
input order, numbered from 1. -/
def runLines (rs : List RunTriple) : List String :=
  rs.enum.map fun p => runLine (p.1 + 1) p.2

/-- The final-averages slide content (lines 143–151). -/
def avgBullets (a : Averages) (t : Throughput) : List String :=
  [ "Avg without padding: " ++ fmt2 a.falseSharing ++ " ms",
    "Avg with padding:    " ++ fmt2 a.optimized ++ " ms",
    "Speedup:             " ++ fmt2 a.speedup ++ "x (" ++
      fmt1 ((a.speedup - 1) * 100) ++ "% time reduction)",
    "",
    "Throughput (False sharing): " ++ thousands t.falseSharing ++ " ops/sec",
    "Throughput (Optimized):     " ++ thousands t.optimized ++ " ops/sec",
    "Throughput gain:            " ++ fmt2 t.gain ++ "x" ]

/-- Pipeline A: the full text deck, slide by slide, in the order of the
`add_title_slide` / `add_bullet_slide` calls of `src/make_presentation.py`. -/
def buildTextDeck (d : Dataset) : List Slide :=
  [ .titleSlide "False Sharing — Demo & Mitigation"
      (some "Dubois et al. (1990) & Jeremiassen & Eggers (1993)"),
    .bulletSlide "Agenda"
      [ "What is false sharing?",
        "Demonstration code and mitigation approach",
        "Memory-layout evidence",
        "Measured results (your run)",
        "Analysis and recommendations" ],
    .bulletSlide "What is False Sharing?"
      [ "Independent variables used by different threads share a cache line",
        "Writes cause cache-line invalidation and coherence traffic",
        "Leads to significant slowdowns in multithreaded code" ],
    .bulletSlide "Unoptimized Code (concept)"
      [ "Shared array of counters packed contiguously",
        "Each thread increments counter[tid] rapidly",
        "Counters fall into same cache line → false sharing" ],
    .bulletSlide "Optimized Code (compile-time padding)"
      [ "Per-thread padded struct: int counter; char pad[64 - sizeof(int)];",
        "Each counter aligned to its own cache line (alignas(64) or __attribute__)",
        "Eliminates cache invalidation between threads" ],
    .bulletSlide "Memory Layout — Measured" (memBullets d.memoryLayout),
    .bulletSlide "System & Test Parameters" (sysBullets d.systemInfo),
    .bulletSlide "Per-Run Results" (runLines d.runs),
    .bulletSlide "Final Averages" (avgBullets d.averages d.throughput),
    .bulletSlide "Analysis"
      [ "Padding reduced false sharing; observed improvement was small (≈1.03x)",
        "Possible reasons: hardware cache-coherence efficiency, measurement noise",
        "Recommendations: increase workload, pin threads, measure cache misses" ],
    .bulletSlide "Practical Recommendations"
      [ "Use padding / alignas(64) for per-thread hot data",
        "Prefer compile-time layout changes when access patterns are static",
        "Combine with thread pinning and larger workloads for clearer gains" ],
    .bulletSlide "References"
      [ "Dubois, Scheurich & Briggs (1990) - False sharing analysis",
        "Jeremiassen & Eggers (1993) - Compile-time data transformations" ] ]

/-- Index of the per-run-results slide in the text deck. -/
def perRunIndex : Nat := 7

/-- Index of the final-averages slide in the text deck. -/
def avgIndex : Nat := 8

/-- The embedded dataset with the `runs` sequence emptied, for the
degraded-input behaviour of the assembler. -/
def datasetNoRuns : Dataset := { dataset with runs := [] }

/-- The bullet content lists of a deck, in slide order (the text the
claim about determinism compares byte for byte). -/
def deckBulletTexts (deck : List Slide) : List (List String) :=
  deck.filterMap fun s =>
    match s with
    | .bulletSlide _ content => some content
    | _ => none

/-! ## Pipeline B: `src/make_presentation_with_charts.py` -/

/-- The dataset literals re-declared at the top of
`src/make_presentation_with_charts.py` (lines 9–15). -/
def chartRuns : List RunTriple := [(76, 64, 119/100), (71, 81, 88/100), (78, 74, 105/100)]

def chartAverages : ℚ × ℚ := (75, 73)

def chartThroughput : Nat × Nat := (2666666667, 2739726027)

/-- One image-file write performed by Pipeline B: the path passed to the
library and the `dpi` keyword if one was given (`none` = library default). -/
structure ImgSave where
  path : String
  dpi : Option Nat
deriving DecidableEq, Repr

/-- The four image writes of Pipeline B in program order: two matplotlib
`savefig` calls with `dpi=150` (lines 33, 48) and two PIL `img.save`
calls with no resolution argument (lines 73, 87); `out_dir` is `'.'`. -/
def chartArtifacts : List ImgSave :=
  [ { path := "./timing_per_run.png", dpi := some 150 },
    { path := "./throughput_avg.png", dpi := some 150 },
    { path := "./illustration_false_sharing.png", dpi := none },
    { path := "./illustration_padded.png", dpi := none } ]

/-- The summary slide content (lines 125–127): first paragraph set via
`body.text`, then two appended paragraphs, the second computed from the
averages pair. -/
def summaryBullets (a : ℚ × ℚ) : List String :=
  [ "Results summary:",
    "Avg speedup (padding): " ++ fmt2 (a.1 / a.2) ++ "x (~" ++
      fmt1 ((a.1 - a.2) / a.1 * 100) ++ "% reduction)",
    "Recommendations: use padding, thread pinning, and larger workloads" ]

/-- Pipeline B: the five-slide chart deck, in the order of the
`prs.slides.add_slide` calls (lines 95–127). -/
def buildChartDeck (a : ℚ × ℚ) : List Slide :=
  [ .titleSlide "False Sharing — Demo & Mitigation"
      (some "Timing and memory-layout charts included"),
    .pictureSlide "Per-run Timing" ["timing_per_run.png"],
    .pictureSlide "Average Throughput" ["throughput_avg.png"],
    .pictureSlide "Illustration: False Sharing vs Padded"
      ["illustration_false_sharing.png", "illustration_padded.png"],
    .bulletSlide "Summary & Recommendations" (summaryBullets a) ]

/-! ## Error model of Pipeline B

The script's only exception handler wraps `ImageFont.truetype` (lines
53–57): on any failure it substitutes `ImageFont.load_default()`.  Every
other external call is unguarded, so an error raised there aborts the
run.  We model each external call's outcome as an `Except` value fed
into the pipeline; the pipeline binds them in program order, and only
the font call's error is intercepted. -/

inductive Font where
  | preferred
  | fallbackDefault
deriving DecidableEq, Repr

/-- The `try: font = ImageFont.truetype(...) except: font = ImageFont.load_default()`
block: a failed font load is replaced by the default font. -/
def loadFont (truetypeResult : Except String Unit) : Font :=
  match truetypeResult with
  | .ok _ => .preferred
  | .error _ => .fallbackDefault

/-- Outcomes of the external calls Pipeline B performs, in program order. -/
structure ExtCalls where
  savefigTiming : Except String Unit
  savefigThroughput : Except String Unit
  truetype : Except String Unit
  saveIllustrationFS : Except String Unit
  saveIllustrationPadded : Except String Unit
  savePptx : Except String Unit

/-- What a successful run of Pipeline B produces. -/
structure ChartOutput where
  artifacts : List ImgSave
  deck : List Slide
  fontUsed : Font
deriving DecidableEq, Repr

/-- Pipeline B end to end: the unguarded external calls are bound in
program order (any error aborts the run unchanged); the font load is the
sole call whose failure is recovered, via `loadFont`. -/
def chartPipeline (e : ExtCalls) : Except String ChartOutput := do
  let _ ← e.savefigTiming
  let _ ← e.savefigThroughput
  let font := loadFont e.truetype
  let _ ← e.saveIllustrationFS
  let _ ← e.saveIllustrationPadded
  let _ ← e.savePptx
  pure { artifacts := chartArtifacts, deck := buildChartDeck chartAverages, fontUsed := font }

/-- The concrete external-call outcomes where every call succeeds. -/
def allOkCalls : ExtCalls :=
  { savefigTiming := .ok (), savefigThroughput := .ok (), truetype := .ok ()
    saveIllustrationFS := .ok (), saveIllustrationPadded := .ok (), savePptx := .ok () }

/-- The concrete external-call outcomes where only the font load fails. -/
def fontFailCalls : ExtCalls :=
  { allOkCalls with truetype := .error "font missing" }

/-! # Helper lemmas -/

/-- Indexing the formatted per-run lines: line `i` is the line for run `i`
of the input, numbered `i + 1`. -/
theorem runLines_getElem? (rs : List RunTriple) (i : Nat) :
    (runLines rs)[i]? = (rs[i]?).map fun r => runLine (i + 1) r := by
  simp only [runLines, List.getElem?_map, List.getElem?_enum]
  cases rs[i]? <;> rfl

/-- Folding the bullet loop over indices `≥ 1` only ever appends styled
paragraphs. -/
theorem enumFrom_foldl_applyBullet (l : List String) :
    ∀ (n : Nat) (ps : List Para),
      (List.enumFrom (n + 1) l).foldl (fun ps p => applyBullet ps p.1 p.2) ps
        = ps ++ l.map styledPara := by
  induction l with
  | nil => intro n ps; simp
  | cons a l ih =>
    intro n ps
    have happ : applyBullet ps (n + 1) a = ps ++ [styledPara a] := by
      simp [applyBullet]
    simp only [List.enumFrom, List.foldl, happ, ih (n + 1)]
    simp

/-- On a nonempty bullet list the loop of `add_bullet_slide` produces
exactly the styled bullets: the first overwrites the cleared paragraph,
the rest are appended. -/
theorem addBulletSlideParas_cons (b : String) (rest : List String) :
    addBulletSlideParas (b :: rest) = (b :: rest).map styledPara := by
  have h0 : applyBullet [emptyPara] 0 b = [styledPara b] := rfl
  simp only [addBulletSlideParas, List.enum, List.enumFrom, List.foldl, h0,
    enumFrom_foldl_applyBullet rest 0 [styledPara b]]
  simp

/-! # Claims -/

/-- Claim C1, as stated: the text deck contains exactly 9 slides.  False:
the deck built by `src/make_presentation.py` has 12 slides (1 title slide
followed by 11 bullet slides). -/
theorem c1_counterexample : ¬ ((buildTextDeck dataset).length = 9) := by
  decide

/-- Claim C1 (amended): the text deck contains exactly 12 slides — 1
title slide followed by 11 bullet slides in a fixed order: agenda, three
concept slides (what is false sharing, unoptimized code, optimized
code), memory-layout readout, system parameters, per-run results, final
averages, analysis, recommendations, references. -/
theorem c1_text_deck_structure :
    (buildTextDeck dataset).length = 12
    ∧ (buildTextDeck dataset).map Slide.heading =
        [ "False Sharing — Demo & Mitigation", "Agenda", "What is False Sharing?",
          "Unoptimized Code (concept)", "Optimized Code (compile-time padding)",
          "Memory Layout — Measured", "System & Test Parameters", "Per-Run Results",
          "Final Averages", "Analysis", "Practical Recommendations", "References" ]
    ∧ (buildTextDeck dataset)[0]? =
        some (.titleSlide "False Sharing — Demo & Mitigation"
          (some "Dubois et al. (1990) & Jeremiassen & Eggers (1993)"))
    ∧ ((buildTextDeck dataset).drop 1).all Slide.isBullet = true := by
  refine ⟨rfl, rfl, rfl, rfl⟩

/-- Claim C2: for a dataset whose `runs` sequence has `N` entries, the
per-run-results slide carries exactly `N` formatted lines, one per run,
in input order, each rendering the two millisecond timings and the
speedup ratio with 2 decimal places (`fmt2`). -/
theorem c2_per_run_lines (d : Dataset) :
    (buildTextDeck d)[perRunIndex]? =
        some (.bulletSlide "Per-Run Results" (runLines d.runs))
    ∧ (runLines d.runs).length = d.runs.length
    ∧ ∀ (i : Nat) (r : RunTriple), d.runs[i]? = some r →
        (runLines d.runs)[i]? =
          some ("Run " ++ toString (i + 1) ++ ": False sharing " ++ fmt2 r.1 ++
            " ms, Optimized " ++ fmt2 r.2.1 ++ " ms, Speedup " ++ fmt2 r.2.2 ++ "x") := by
  refine ⟨rfl, ?_, ?_⟩
  · simp [runLines, List.enum_length]
  · intro i r h
    rw [runLines_getElem?, h]
    rfl

/-- Witness for C2 at the embedded dataset's first run. -/
theorem c2_witness :
    dataset.runs[0]? = some ((76 : ℚ), (64 : ℚ), (119 / 100 : ℚ))
    ∧ (runLines dataset.runs)[0]? =
        some ("Run " ++ toString (0 + 1) ++ ": False sharing " ++ fmt2 76 ++
          " ms, Optimized " ++ fmt2 64 ++ " ms, Speedup " ++ fmt2 (119 / 100) ++ "x") :=
  ⟨rfl, (c2_per_run_lines dataset).2.2 0 (76, 64, 119 / 100) rfl⟩

/-- Claim C3: the chart deck contains exactly 5 slides in order — title,
per-run-timing image, throughput image, side-by-side illustrations,
bullet summary. -/
theorem c3_chart_deck_structure :
    (buildChartDeck chartAverages).length = 5
    ∧ (buildChartDeck chartAverages)[0]? =
        some (.titleSlide "False Sharing — Demo & Mitigation"
          (some "Timing and memory-layout charts included"))
    ∧ (buildChartDeck chartAverages)[1]? =
        some (.pictureSlide "Per-run Timing" ["timing_per_run.png"])
    ∧ (buildChartDeck chartAverages)[2]? =
        some (.pictureSlide "Average Throughput" ["throughput_avg.png"])
    ∧ (buildChartDeck chartAverages)[3]? =
        some (.pictureSlide "Illustration: False Sharing vs Padded"
          ["illustration_false_sharing.png", "illustration_padded.png"])
    ∧ (buildChartDeck chartAverages)[4]? =
        some (.bulletSlide "Summary & Recommendations" (summaryBullets chartAverages)) :=
  ⟨rfl, rfl, rfl, rfl, rfl, rfl⟩

unseal Rat.add Rat.mul Rat.inv Rat.sub in
/-- Claim C4: in the chart deck's summary slide, the speedup ratio is
computed as `avgUnoptimized / avgOptimized = 75/73 ≈ 1.0274` and renders
to 2 decimal places as `1.03`; the percent reduction is computed as
`(avgUnoptimized − avgOptimized) / avgUnoptimized × 100 = 8/3 ≈ 2.67`. -/
theorem c4_summary_numbers :
    (summaryBullets chartAverages)[1]? =
        some ("Avg speedup (padding): " ++ fmt2 (chartAverages.1 / chartAverages.2) ++
          "x (~" ++ fmt1 ((chartAverages.1 - chartAverages.2) / chartAverages.1 * 100) ++
          "% reduction)")
    ∧ chartAverages.1 / chartAverages.2 = 75 / 73
    ∧ |chartAverages.1 / chartAverages.2 - 10274 / 10000| < 1 / 10 ^ 4
    ∧ fmt2 (chartAverages.1 / chartAverages.2) = "1.03"
    ∧ (chartAverages.1 - chartAverages.2) / chartAverages.1 * 100 = 8 / 3
    ∧ |(chartAverages.1 - chartAverages.2) / chartAverages.1 * 100 - 267 / 100| < 1 / 100 := by
  refine ⟨rfl, by decide, by decide, by decide, by decide, by decide⟩

unseal Rat.add Rat.mul Rat.inv Rat.sub in
/-- Claim C5: the text deck's final-averages slide derives the displayed
percentage time reduction as `(speedup − 1) × 100` from the dataset's
average speedup; at the embedded literal `speedup = 103/100` the value
is exactly `3` and renders as `3.0`. -/
theorem c5_percent_reduction :
    (∀ d : Dataset,
      (buildTextDeck d)[avgIndex]? =
          some (.bulletSlide "Final Averages" (avgBullets d.averages d.throughput))
      ∧ (avgBullets d.averages d.throughput)[2]? =
          some ("Speedup:             " ++ fmt2 d.averages.speedup ++ "x (" ++
            fmt1 ((d.averages.speedup - 1) * 100) ++ "% time reduction)"))
    ∧ dataset.averages.speedup = 103 / 100
    ∧ (dataset.averages.speedup - 1) * 100 = 3
    ∧ fmt1 ((dataset.averages.speedup - 1) * 100) = "3.0" := by
  refine ⟨fun d => ⟨rfl, rfl⟩, rfl, by decide, by decide⟩

/-- Claim C6, as stated: every one of the four image artifacts is written
at 150 DPI.  False: the two PIL illustration saves pass no resolution
argument, so only the two matplotlib charts carry `dpi=150`. -/
theorem c6_counterexample : ¬ (∀ a ∈ chartArtifacts, a.dpi = some 150) := by
  decide

/-- Claim C6 (amended): Pipeline B writes exactly four raster image files
before deck assembly, to the current working directory, with the fixed
filenames `timing_per_run.png`, `throughput_avg.png`,
`illustration_false_sharing.png`, `illustration_padded.png`; the two
matplotlib charts are saved at 150 DPI, while the two PIL illustrations
are saved with the library's default resolution (no DPI argument).
Every successful pipeline run produces exactly this artifact list. -/
theorem c6_artifact_files :
    chartArtifacts.length = 4
    ∧ chartArtifacts.map ImgSave.path =
        [ "./timing_per_run.png", "./throughput_avg.png",
          "./illustration_false_sharing.png", "./illustration_padded.png" ]
    ∧ chartArtifacts.map ImgSave.dpi = [some 150, some 150, none, none]
    ∧ ∀ (e : ExtCalls) (o : ChartOutput), chartPipeline e = .ok o →
        o.artifacts = chartArtifacts := by
  refine ⟨rfl, rfl, rfl, ?_⟩
  intro e o h
  obtain ⟨f1, f2, f3, f4, f5, f6⟩ := e
  cases f1 <;> cases f2 <;> cases f4 <;> cases f5 <;> cases f6 <;>
    first
      | exact Except.noConfusion h
      | (cases h; rfl)

/-- Witness for C6: in the all-successful run the artifact list of the
pipeline output is exactly `chartArtifacts`. -/
theorem c6_witness :
    (ChartOutput.mk chartArtifacts (buildChartDeck chartAverages) Font.preferred).artifacts
      = chartArtifacts :=
  c6_artifact_files.2.2.2 allOkCalls
    (ChartOutput.mk chartArtifacts (buildChartDeck chartAverages) Font.preferred) rfl

/-- Claim C7: with an empty `runs` sequence the text deck still builds —
all 12 slides are produced and the per-run-results slide carries an
empty content list (the cleared body is left as its single empty
paragraph); nothing fails. -/
theorem c7_empty_runs_degrade :
    (buildTextDeck datasetNoRuns).length = 12
    ∧ (buildTextDeck datasetNoRuns)[perRunIndex]? =
        some (.bulletSlide "Per-Run Results" [])
    ∧ runLines datasetNoRuns.runs = []
    ∧ addBulletSlideParas [] = [emptyPara] :=
  ⟨rfl, rfl, rfl, rfl⟩

/-- Claim C8: a failed font load is the one locally recovered error —
the pipeline substitutes the default font and completes; a failure in
any other external call (either chart save, either illustration save,
or the deck save) propagates unmodified as the pipeline's result. -/
theorem c8_font_fallback_only_recovery :
    (∀ (e : ExtCalls) (msg : String),
        e.truetype = .error msg →
        e.savefigTiming = .ok () → e.savefigThroughput = .ok () →
        e.saveIllustrationFS = .ok () → e.saveIllustrationPadded = .ok () →
        e.savePptx = .ok () →
        chartPipeline e =
          .ok ⟨chartArtifacts, buildChartDeck chartAverages, Font.fallbackDefault⟩)
    ∧ (∀ e : ExtCalls,
        e.truetype = .ok () →
        e.savefigTiming = .ok () → e.savefigThroughput = .ok () →
        e.saveIllustrationFS = .ok () → e.saveIllustrationPadded = .ok () →
        e.savePptx = .ok () →
        chartPipeline e =
          .ok ⟨chartArtifacts, buildChartDeck chartAverages, Font.preferred⟩)
    ∧ (∀ (e : ExtCalls) (msg : String),
        e.savefigTiming = .error msg → chartPipeline e = .error msg)
    ∧ (∀ (e : ExtCalls) (msg : String),
        e.savefigTiming = .ok () → e.savefigThroughput = .error msg →
        chartPipeline e = .error msg)
    ∧ (∀ (e : ExtCalls) (msg : String),
        e.savefigTiming = .ok () → e.savefigThroughput = .ok () →
        e.saveIllustrationFS = .error msg → chartPipeline e = .error msg)
    ∧ (∀ (e : ExtCalls) (msg : String),
        e.savefigTiming = .ok () → e.savefigThroughput = .ok () →
        e.saveIllustrationFS = .ok () → e.saveIllustrationPadded = .error msg →
        chartPipeline e = .error msg)
    ∧ (∀ (e : ExtCalls) (msg : String),
        e.savefigTiming = .ok () → e.savefigThroughput = .ok () →
        e.saveIllustrationFS = .ok () → e.saveIllustrationPadded = .ok () →
        e.savePptx = .error msg → chartPipeline e = .error msg) := by
  refine ⟨?_, ?_, ?_, ?_, ?_, ?_, ?_⟩
  · intro e msg
    obtain ⟨f1, f2, f3, f4, f5, f6⟩ := e
    intro h1 h2 h3 h4 h5 h6
    subst h1; subst h2; subst h3; subst h4; subst h5; subst h6; rfl
  · intro e
    obtain ⟨f1, f2, f3, f4, f5, f6⟩ := e
    intro h1 h2 h3 h4 h5 h6
    subst h1; subst h2; subst h3; subst h4; subst h5; subst h6; rfl
  · intro e msg
    obtain ⟨f1, f2, f3, f4, f5, f6⟩ := e
    intro h1
    subst h1; rfl
  · intro e msg
    obtain ⟨f1, f2, f3, f4, f5, f6⟩ := e
    intro h1 h2
    subst h1; subst h2; rfl
  · intro e msg
    obtain ⟨f1, f2, f3, f4, f5, f6⟩ := e
    intro h1 h2 h3
    subst h1; subst h2; subst h3; rfl
  · intro e msg
    obtain ⟨f1, f2, f3, f4, f5, f6⟩ := e
    intro h1 h2 h3 h4
    subst h1; subst h2; subst h3; subst h4; rfl
  · intro e msg
    obtain ⟨f1, f2, f3, f4, f5, f6⟩ := e
    intro h1 h2 h3 h4 h5
    subst h1; subst h2; subst h3; subst h4; subst h5; rfl

/-- Witness for C8: the concrete run where only the font load fails
completes with the default font. -/
theorem c8_witness :
    fontFailCalls.truetype = Except.error "font missing"
    ∧ chartPipeline fontFailCalls =
        .ok ⟨chartArtifacts, buildChartDeck chartAverages, Font.fallbackDefault⟩ :=
  ⟨rfl, c8_font_fallback_only_recovery.1 fontFailCalls "font missing" rfl rfl rfl rfl rfl rfl⟩

/-- Claim C9: the bullet text content of both decks is a deterministic
pure function of the input data — equal inputs give identical decks and
identical bullet text content. -/
theorem c9_deterministic (d₁ d₂ : Dataset) (a₁ a₂ : ℚ × ℚ)
    (hd : d₁ = d₂) (ha : a₁ = a₂) :
    buildTextDeck d₁ = buildTextDeck d₂
    ∧ deckBulletTexts (buildTextDeck d₁) = deckBulletTexts (buildTextDeck d₂)
    ∧ buildChartDeck a₁ = buildChartDeck a₂
    ∧ deckBulletTexts (buildChartDeck a₁) = deckBulletTexts (buildChartDeck a₂) := by
  subst hd; subst ha
  exact ⟨rfl, rfl, rfl, rfl⟩

/-- Witness for C9 at the embedded inputs. -/
theorem c9_witness :
    buildTextDeck dataset = buildTextDeck dataset
    ∧ deckBulletTexts (buildTextDeck dataset) = deckBulletTexts (buildTextDeck dataset)
    ∧ buildChartDeck chartAverages = buildChartDeck chartAverages
    ∧ deckBulletTexts (buildChartDeck chartAverages)
        = deckBulletTexts (buildChartDeck chartAverages) :=
  c9_deterministic dataset dataset chartAverages chartAverages rfl rfl

/-- Claim C10: for a nonempty bullet list of length `K` the slide body
holds exactly `K` paragraphs whose texts are the bullets in order — the
first bullet overwrites the cleared frame's empty paragraph, so no
leading blank line appears — and every paragraph has indent level 0 and
an 18-point font. -/
theorem c10_bullet_slide_paragraphs (bullets : List String) (h : bullets ≠ []) :
    (addBulletSlideParas bullets).length = bullets.length
    ∧ (addBulletSlideParas bullets).map Para.text = bullets
    ∧ ∀ p ∈ addBulletSlideParas bullets, p.level = 0 ∧ p.fontSize = some 18 := by
  cases bullets with
  | nil => exact absurd rfl h
  | cons b rest =>
    rw [addBulletSlideParas_cons]
    refine ⟨by simp, ?_, ?_⟩
    · simp [List.map_map, styledPara, Function.comp_def]
    · intro p hp
      simp only [List.mem_map] at hp
      obtain ⟨b', _, rfl⟩ := hp
      exact ⟨rfl, rfl⟩

/-- Witness for C10 on a concrete two-bullet list. -/
theorem c10_witness :
    (["first", "second"] : List String) ≠ []
    ∧ (addBulletSlideParas ["first", "second"]).map Para.text = ["first", "second"] :=
  ⟨by decide, (c10_bullet_slide_paragraphs ["first", "second"] (by decide)).2.1⟩
